import Mathlib

/-!
Verification of the two-phase API-call orchestrator (`APIChain` from
`langchain/chains/api/base.py`).

The chain holds two LLM sub-chains (phase-1 URL generation, phase-2 answer
synthesis), an HTTP text fetcher, a fixed block of API documentation, and an
optional response-normalization hook.  We embed the collaborators as pure
functions returning `Except Err String` (an LLM stub, a fetch stub), and we
record the observable interactions — model invocations with their bindings,
observer notifications (`callback_manager.on_text`), and fetcher calls — as an
event trace, so that claims about *which arguments a collaborator receives*
become statements about the trace.
-/

namespace APIChainSpec

/-- Errors of the orchestrator: configuration failures at construction
(the `ValueError` from the prompt-variable validators), a missing input key
(Python `KeyError`), and failures propagated from the model or the fetcher. -/
inductive Err where
  | configurationError (msg : String)
  | keyError (key : String)
  | modelInvocationError (msg : String)
  | fetchError (msg : String)
deriving DecidableEq, Repr

/-- Observable pipeline events, in the order the code performs them:
a phase-1 model invocation with its bindings, an observer notification
(`callback_manager.on_text`), a fetcher call (`requests_wrapper.get`), and a
phase-2 model invocation with its four bindings. -/
inductive Event where
  | predictRequest (question api_docs : String)
  | onText (text : String)
  | get (url : String)
  | predictAnswer (question api_docs api_url api_response : String)
deriving DecidableEq, Repr

/-- A prompt template's declared input-variable list (`prompt.input_variables`). -/
structure PromptSpec where
  input_variables : List String

/-- The `APIChain` record: the two LLM sub-chains and the requests wrapper are
embedded as functions from their bindings to `Except Err String`; deterministic
collaborators' sync (`predict` / `get`) and async (`apredict` / `aget`) entry
points compute the same text, so one function stands for both.
`api_request_output_parserFn` embeds the optional `api_request_output_parser`
hook (`none` for the Python `None`). -/
structure APIChain where
  api_request_chain : String → String → Except Err String
  api_answer_chain : String → String → String → String → Except Err String
  requests_wrapper : String → Except Err String
  api_docs : String
  question_key : String
  output_key : String
  api_request_output_parserFn : Option (String → String)

/-- Dictionary lookup on the input mapping, embedding `inputs[key]` access
(`none` when the key is absent, where Python raises `KeyError`). -/
def dictGet (inputs : List (String × String)) (k : String) : Option String :=
  match inputs with
  | [] => none
  | (k2, v) :: rest => if k2 = k then some v else dictGet rest k

/-- The blocking `_call` path.  Returns the outcome together with the trace of
events performed before the invocation returned or aborted.  Mirrors the
source line by line: extract the question; phase-1 predict; `on_text` with the
URL; `requests_wrapper.get`; `on_text` with the raw response; apply
`api_request_output_parser` when configured; phase-2 predict; return
`{output_key: answer}`.  Any step's failure aborts with that step's error. -/
def APIChain.call (c : APIChain) (inputs : List (String × String)) :
    Except Err (List (String × String)) × List Event :=
  match dictGet inputs c.question_key with
  | none => (.error (.keyError c.question_key), [])
  | some question =>
    match c.api_request_chain question c.api_docs with
    | .error e => (.error e, [.predictRequest question c.api_docs])
    | .ok api_url =>
      match c.requests_wrapper api_url with
      | .error e =>
          (.error e,
            [.predictRequest question c.api_docs, .onText api_url, .get api_url])
      | .ok api_response_raw =>
        let api_response :=
          match c.api_request_output_parserFn with
          | some p => p api_response_raw
          | none => api_response_raw
        match c.api_answer_chain question c.api_docs api_url api_response with
        | .error e =>
            (.error e,
              [.predictRequest question c.api_docs, .onText api_url,
               .get api_url, .onText api_response_raw,
               .predictAnswer question c.api_docs api_url api_response])
        | .ok answer =>
            (.ok [(c.output_key, answer)],
              [.predictRequest question c.api_docs, .onText api_url,
               .get api_url, .onText api_response_raw,
               .predictAnswer question c.api_docs api_url api_response])

/-- The suspending `_acall` path.  Identical step order to `call`, except that
the source never consults `api_request_output_parser` here: the raw fetched
text is bound to `api_response` in phase 2 unconditionally. -/
def APIChain.acall (c : APIChain) (inputs : List (String × String)) :
    Except Err (List (String × String)) × List Event :=
  match dictGet inputs c.question_key with
  | none => (.error (.keyError c.question_key), [])
  | some question =>
    match c.api_request_chain question c.api_docs with
    | .error e => (.error e, [.predictRequest question c.api_docs])
    | .ok api_url =>
      match c.requests_wrapper api_url with
      | .error e =>
          (.error e,
            [.predictRequest question c.api_docs, .onText api_url, .get api_url])
      | .ok api_response =>
        match c.api_answer_chain question c.api_docs api_url api_response with
        | .error e =>
            (.error e,
              [.predictRequest question c.api_docs, .onText api_url,
               .get api_url, .onText api_response,
               .predictAnswer question c.api_docs api_url api_response])
        | .ok answer =>
            (.ok [(c.output_key, answer)],
              [.predictRequest question c.api_docs, .onText api_url,
               .get api_url, .onText api_response,
               .predictAnswer question c.api_docs api_url api_response])

/-- URLs passed to the fetcher, extracted from a trace. -/
def fetchedUrls (t : List Event) : List String :=
  t.filterMap fun e =>
    match e with
    | .get u => some u
    | _ => none

/-- Bindings of the phase-2 model invocations in a trace, as
(question, api_docs, api_url, api_response) tuples. -/
def answerBindings (t : List Event) : List (String × String × String × String) :=
  t.filterMap fun e =>
    match e with
    | .predictAnswer q d u r => some (q, d, u, r)
    | _ => none

/-- Texts handed to the observer (`callback_manager.on_text`), in order. -/
def observedTexts (t : List Event) : List String :=
  t.filterMap fun e =>
    match e with
    | .onText s => some s
    | _ => none

/-- Validator `validate_api_request_prompt`: the phase-1 prompt's declared
variable set must equal exactly the set containing `question` and `api_docs`
(the Python set-equality check on `input_variables`). -/
def validate_api_request_prompt (input_vars : List String) : Except Err Unit :=
  if input_vars.toFinset = ({"question", "api_docs"} : Finset String) then
    .ok ()
  else
    .error (.configurationError "api request prompt input variables mismatch")

/-- Validator `validate_api_answer_prompt`: the phase-2 prompt's declared
variable set must equal exactly the set containing `question`, `api_docs`,
`api_url` and `api_response`. -/
def validate_api_answer_prompt (input_vars : List String) : Except Err Unit :=
  if input_vars.toFinset =
      ({"question", "api_docs", "api_url", "api_response"} : Finset String) then
    .ok ()
  else
    .error (.configurationError "api answer prompt input variables mismatch")

/-- Orchestrator construction: both `root_validator`s run (in definition
order, the request-prompt check first) before the chain value exists; a
validator failure aborts construction with its error. -/
def APIChain.construct (api_request_prompt api_answer_prompt : PromptSpec)
    (requestChain : String → String → Except Err String)
    (answerChain : String → String → String → String → Except Err String)
    (requestsWrapper : String → Except Err String)
    (api_docs question_key output_key : String)
    (parserFn : Option (String → String)) : Except Err APIChain := do
  validate_api_request_prompt api_request_prompt.input_variables
  validate_api_answer_prompt api_answer_prompt.input_variables
  pure
    { api_request_chain := requestChain
      api_answer_chain := answerChain
      requests_wrapper := requestsWrapper
      api_docs := api_docs
      question_key := question_key
      output_key := output_key
      api_request_output_parserFn := parserFn }

/-- Tests whether a construction outcome is a `ConfigurationError` failure. -/
def failsWithConfigurationError (r : Except Err APIChain) : Bool :=
  match r with
  | .error (.configurationError _) => true
  | _ => false

/-- Concrete end-to-end scenario chain: phase-1 stub returns the Paris weather
URL, the fetcher stub returns the JSON body, the phase-2 stub echoes its
`api_response` binding, no normalizer is configured. -/
def weatherChain : APIChain where
  api_request_chain := fun _ _ => .ok "https://api.weather/paris"
  api_answer_chain := fun _ _ _ api_response => .ok api_response
  requests_wrapper := fun _ => .ok "\x7b\"temp_c\": 18\x7d"
  api_docs := "weather api docs"
  question_key := "question"
  output_key := "output"
  api_request_output_parserFn := none

/-- Stub chain whose phase-1 model returns the fixed URL of claim C3 and whose
other collaborators are benign stubs. -/
def xyChain : APIChain where
  api_request_chain := fun _ _ => .ok "http://x/y?z=1"
  api_answer_chain := fun _ _ _ api_response => .ok api_response
  requests_wrapper := fun _ => .ok "body"
  api_docs := "docs"
  question_key := "question"
  output_key := "output"
  api_request_output_parserFn := none

/-- Stub chain whose fetcher always fails with a `FetchError`. -/
def failingFetchChain : APIChain where
  api_request_chain := fun _ _ => .ok "http://down.example/"
  api_answer_chain := fun _ _ _ api_response => .ok api_response
  requests_wrapper := fun _ => .error (.fetchError "connection refused")
  api_docs := "docs"
  question_key := "question"
  output_key := "output"
  api_request_output_parserFn := none

/-- Upper-casing normalizer used in the witnesses (a concrete pure
`toUpperCase` hook, mapping each character to its upper-case form). -/
def toUpperCase (s : String) : String :=
  String.mk (s.data.map Char.toUpper)

/-- Stub chain with an upper-casing response normalizer configured. -/
def upperChain : APIChain where
  api_request_chain := fun _ _ => .ok "http://x/"
  api_answer_chain := fun _ _ _ api_response => .ok api_response
  requests_wrapper := fun _ => .ok "ok body"
  api_docs := "docs"
  question_key := "question"
  output_key := "output"
  api_request_output_parserFn := some (toUpperCase)

/-- The state-threading variant of the chain, used to express determinism:
each collaborator may read and update an internal state of type sigma, as a
real (possibly stateful) model client or HTTP session could. -/
structure APIChainS (σ : Type) where
  api_request_chain : String → String → σ → Except Err String × σ
  api_answer_chain : String → String → String → String → σ → Except Err String × σ
  requests_wrapper : String → σ → Except Err String × σ
  api_docs : String
  question_key : String
  output_key : String
  api_request_output_parserFn : Option (String → String)

/-- The blocking `_call` path over state-threading collaborators; the same
straight-line sequencing as `APIChain.call`, with the collaborator state
passed from each step to the next. -/
def APIChainS.call {σ : Type} (c : APIChainS σ) (inputs : List (String × String))
    (s : σ) : Except Err (List (String × String)) × σ :=
  match dictGet inputs c.question_key with
  | none => (.error (.keyError c.question_key), s)
  | some question =>
    match c.api_request_chain question c.api_docs s with
    | (.error e, s1) => (.error e, s1)
    | (.ok api_url, s1) =>
      match c.requests_wrapper api_url s1 with
      | (.error e, s2) => (.error e, s2)
      | (.ok api_response_raw, s2) =>
        let api_response :=
          match c.api_request_output_parserFn with
          | some p => p api_response_raw
          | none => api_response_raw
        match c.api_answer_chain question c.api_docs api_url api_response s2 with
        | (.error e, s3) => (.error e, s3)
        | (.ok answer, s3) => (.ok [(c.output_key, answer)], s3)

/-- A one-argument collaborator is pure when it neither reads nor writes the
threaded state: it agrees with a state-free function and leaves the state
unchanged. -/
def PureFetcher {σ : Type} (f : String → σ → Except Err String × σ) : Prop :=
  ∃ g : String → Except Err String, ∀ u s, f u s = (g u, s)

/-- Purity for the two-binding phase-1 invoker. -/
def PureInvoker2 {σ : Type} (f : String → String → σ → Except Err String × σ) : Prop :=
  ∃ g : String → String → Except Err String, ∀ a b s, f a b s = (g a b, s)

/-- Purity for the four-binding phase-2 invoker. -/
def PureInvoker4 {σ : Type}
    (f : String → String → String → String → σ → Except Err String × σ) : Prop :=
  ∃ g : String → String → String → String → Except Err String,
    ∀ a b u r s, f a b u r s = (g a b u r, s)

/-- Pure version of the state-threading stub chain, for concrete witnesses:
state type Nat, all collaborators ignoring and preserving the state. -/
def pureStubChainS : APIChainS Nat where
  api_request_chain := fun _ _ s => (.ok "http://x/", s)
  api_answer_chain := fun _ _ _ api_response s => (.ok api_response, s)
  requests_wrapper := fun _ s => (.ok "body", s)
  api_docs := "docs"
  question_key := "question"
  output_key := "output"
  api_request_output_parserFn := none

/-- C7: end-to-end functional behaviour.  With the question about Paris, the
stubbed phase-1 URL, the stubbed JSON fetch body, and a phase-2 stub echoing
its `api_response` binding, the blocking invocation returns exactly the
mapping from the output key to the fetched JSON body. -/
theorem weatherChain_end_to_end :
    (weatherChain.call [("question", "What is the weather in Paris?")]).1 =
      .ok [("output", "\x7b\"temp_c\": 18\x7d")] := by
  rfl

/-- C1: construction fails with a `ConfigurationError` whenever the phase-1
prompt's declared variable set differs from the exact set containing
`question` and `api_docs`. -/
theorem construct_fails_on_bad_request_vars
    (rp ap : PromptSpec)
    (rc : String → String → Except Err String)
    (ac : String → String → String → String → Except Err String)
    (rw2 : String → Except Err String)
    (docs qk outk : String) (pf : Option (String → String))
    (h : rp.input_variables.toFinset ≠ ({"question", "api_docs"} : Finset String)) :
    failsWithConfigurationError
      (APIChain.construct rp ap rc ac rw2 docs qk outk pf) = true := by
  unfold APIChain.construct validate_api_request_prompt
  rw [if_neg h]
  rfl

/-- C1 witness: constructing with phase-1 variable list containing `question`
alone, or with the extra variable `foo`, fails with a `ConfigurationError`
(phase-2 prompt and collaborators held valid and fixed). -/
theorem construct_fails_on_bad_request_vars_witness :
    failsWithConfigurationError
      (APIChain.construct ⟨["question"]⟩
        ⟨["question", "api_docs", "api_url", "api_response"]⟩
        (fun _ _ => .ok "") (fun _ _ _ _ => .ok "") (fun _ => .ok "")
        "docs" "question" "output" none) = true ∧
    failsWithConfigurationError
      (APIChain.construct ⟨["question", "api_docs", "foo"]⟩
        ⟨["question", "api_docs", "api_url", "api_response"]⟩
        (fun _ _ => .ok "") (fun _ _ _ _ => .ok "") (fun _ => .ok "")
        "docs" "question" "output" none) = true :=
  ⟨construct_fails_on_bad_request_vars _ _ _ _ _ _ _ _ _ (by decide),
   construct_fails_on_bad_request_vars _ _ _ _ _ _ _ _ _ (by decide)⟩

/-- C2: construction fails with a `ConfigurationError` whenever the phase-2
prompt's declared variable set differs from the exact set containing
`question`, `api_docs`, `api_url` and `api_response` (whichever of the two
validators fires, the failure is a `ConfigurationError`). -/
theorem construct_fails_on_bad_answer_vars
    (rp ap : PromptSpec)
    (rc : String → String → Except Err String)
    (ac : String → String → String → String → Except Err String)
    (rw2 : String → Except Err String)
    (docs qk outk : String) (pf : Option (String → String))
    (h : ap.input_variables.toFinset ≠
      ({"question", "api_docs", "api_url", "api_response"} : Finset String)) :
    failsWithConfigurationError
      (APIChain.construct rp ap rc ac rw2 docs qk outk pf) = true := by
  unfold APIChain.construct validate_api_request_prompt validate_api_answer_prompt
  by_cases hr : rp.input_variables.toFinset = ({"question", "api_docs"} : Finset String)
  · rw [if_pos hr, if_neg h]
    rfl
  · rw [if_neg hr]
    rfl

/-- C2 witness: a phase-2 prompt missing `api_response` fails construction. -/
theorem construct_fails_on_bad_answer_vars_witness :
    failsWithConfigurationError
      (APIChain.construct ⟨["question", "api_docs"]⟩
        ⟨["question", "api_docs", "api_url"]⟩
        (fun _ _ => .ok "") (fun _ _ _ _ => .ok "") (fun _ => .ok "")
        "docs" "question" "output" none) = true :=
  construct_fails_on_bad_answer_vars _ _ _ _ _ _ _ _ _ (by decide)

/-- C3: the URL handed to the fetcher is exactly the phase-1 completion text,
with no transformation: whenever phase 1 returns a URL, the trace's fetcher
calls are exactly one call with that very text. -/
theorem fetcher_receives_exact_url
    (c : APIChain) (inputs : List (String × String)) (q u : String)
    (hq : dictGet inputs c.question_key = some q)
    (hreq : c.api_request_chain q c.api_docs = .ok u) :
    fetchedUrls (c.call inputs).2 = [u] := by
  simp only [APIChain.call, hq, hreq]
  cases hw : c.requests_wrapper u with
  | error e => simp [fetchedUrls]
  | ok r =>
    cases ha : c.api_answer_chain q c.api_docs u
        (match c.api_request_output_parserFn with
         | some p => p r
         | none => r) with
    | error e => simp [ha, fetchedUrls]
    | ok answer => simp [ha, fetchedUrls]

/-- C3 witness: with the phase-1 stub returning the literal URL of the claim,
the fetcher is called with exactly that URL. -/
theorem fetcher_receives_exact_url_witness :
    dictGet [("question", "q1")] xyChain.question_key = some "q1" ∧
    xyChain.api_request_chain "q1" xyChain.api_docs = .ok "http://x/y?z=1" ∧
    fetchedUrls (xyChain.call [("question", "q1")]).2 = ["http://x/y?z=1"] :=
  ⟨rfl, rfl, fetcher_receives_exact_url xyChain _ "q1" "http://x/y?z=1" rfl rfl⟩

/-- C4: when the fetch step fails, the invocation aborts with exactly the
fetch error, the phase-2 invoker is never called (no `predictAnswer` event in
the trace), and no output mapping is produced. -/
theorem fetch_failure_aborts_before_phase2
    (c : APIChain) (inputs : List (String × String)) (q u : String) (e : Err)
    (hq : dictGet inputs c.question_key = some q)
    (hreq : c.api_request_chain q c.api_docs = .ok u)
    (hget : c.requests_wrapper u = .error e) :
    (c.call inputs).1 = .error e ∧ answerBindings (c.call inputs).2 = [] := by
  constructor
  · simp [APIChain.call, hq, hreq, hget]
  · simp [APIChain.call, hq, hreq, hget, answerBindings]

/-- C4 witness: with a fetcher stub that always fails, the invocation returns
the fetch error and the phase-2 invoker is never reached. -/
theorem fetch_failure_aborts_before_phase2_witness :
    dictGet [("question", "q1")] failingFetchChain.question_key = some "q1" ∧
    failingFetchChain.api_request_chain "q1" failingFetchChain.api_docs =
      .ok "http://down.example/" ∧
    failingFetchChain.requests_wrapper "http://down.example/" =
      .error (.fetchError "connection refused") ∧
    ((failingFetchChain.call [("question", "q1")]).1 =
        .error (.fetchError "connection refused") ∧
      answerBindings (failingFetchChain.call [("question", "q1")]).2 = []) :=
  ⟨rfl, rfl, rfl,
    fetch_failure_aborts_before_phase2 failingFetchChain _ "q1"
      "http://down.example/" (.fetchError "connection refused") rfl rfl rfl⟩

/-- C5: in the blocking path with a normalizer configured, phase 2's
`api_response` binding is the normalizer applied to the fetched text, never
the raw text: the trace's phase-2 invocations are exactly one invocation with
bindings (question, api_docs, api_url, normalizer (fetched)). -/
theorem call_binds_normalized_response
    (c : APIChain) (inputs : List (String × String)) (q u r : String)
    (f : String → String)
    (hq : dictGet inputs c.question_key = some q)
    (hreq : c.api_request_chain q c.api_docs = .ok u)
    (hget : c.requests_wrapper u = .ok r)
    (hp : c.api_request_output_parserFn = some f) :
    answerBindings (c.call inputs).2 = [(q, c.api_docs, u, f r)] := by
  simp only [APIChain.call, hq, hreq, hget, hp]
  cases ha : c.api_answer_chain q c.api_docs u (f r) with
  | error e => simp [ha, answerBindings]
  | ok answer => simp [ha, answerBindings]

/-- C5 witness: with the upper-casing normalizer, phase 2 receives the
upper-cased fetched text. -/
theorem call_binds_normalized_response_witness :
    dictGet [("question", "q1")] upperChain.question_key = some "q1" ∧
    upperChain.api_request_chain "q1" upperChain.api_docs = .ok "http://x/" ∧
    upperChain.requests_wrapper "http://x/" = .ok "ok body" ∧
    upperChain.api_request_output_parserFn = some (toUpperCase) ∧
    answerBindings (upperChain.call [("question", "q1")]).2 =
      [("q1", upperChain.api_docs, "http://x/", "OK BODY")] := by
  refine ⟨rfl, rfl, rfl, rfl, ?_⟩
  have h := call_binds_normalized_response upperChain [("question", "q1")]
    "q1" "http://x/" "ok body" (toUpperCase) rfl rfl rfl rfl
  have hu : (toUpperCase "ok body" : String) = "OK BODY" := by decide
  simpa [hu] using h

/-- C6: the suspending path never applies the normalizer: even with a
normalizer configured, phase 2's `api_response` binding in `acall` is the raw
fetched text, and the blocking and suspending paths bind the same phase-2
`api_response` exactly when the normalizer fixes the fetched text. -/
theorem acall_skips_normalizer
    (c : APIChain) (inputs : List (String × String)) (q u r : String)
    (f : String → String)
    (hq : dictGet inputs c.question_key = some q)
    (hreq : c.api_request_chain q c.api_docs = .ok u)
    (hget : c.requests_wrapper u = .ok r)
    (hp : c.api_request_output_parserFn = some f) :
    answerBindings (c.acall inputs).2 = [(q, c.api_docs, u, r)] ∧
    (answerBindings (c.call inputs).2 = answerBindings (c.acall inputs).2 ↔
      f r = r) := by
  have hasync : answerBindings (c.acall inputs).2 = [(q, c.api_docs, u, r)] := by
    simp only [APIChain.acall, hq, hreq, hget]
    cases ha : c.api_answer_chain q c.api_docs u r with
    | error e => simp [ha, answerBindings]
    | ok answer => simp [ha, answerBindings]
  have hsync : answerBindings (c.call inputs).2 = [(q, c.api_docs, u, f r)] :=
    call_binds_normalized_response c inputs q u r f hq hreq hget hp
  refine ⟨hasync, ?_⟩
  rw [hasync, hsync]
  simp

/-- C6 witness: with the upper-casing normalizer and fetched text "ok body",
the suspending path binds the raw text, and the two paths' phase-2 bindings
differ since upper-casing changes the text. -/
theorem acall_skips_normalizer_witness :
    dictGet [("question", "q1")] upperChain.question_key = some "q1" ∧
    upperChain.api_request_chain "q1" upperChain.api_docs = .ok "http://x/" ∧
    upperChain.requests_wrapper "http://x/" = .ok "ok body" ∧
    upperChain.api_request_output_parserFn = some (toUpperCase) ∧
    (answerBindings (upperChain.acall [("question", "q1")]).2 =
        [("q1", upperChain.api_docs, "http://x/", "ok body")] ∧
      answerBindings (upperChain.call [("question", "q1")]).2 ≠
        answerBindings (upperChain.acall [("question", "q1")]).2) := by
  refine ⟨rfl, rfl, rfl, rfl, ?_⟩
  have h := acall_skips_normalizer upperChain [("question", "q1")]
    "q1" "http://x/" "ok body" (toUpperCase) rfl rfl rfl rfl
  refine ⟨h.1, fun heq => ?_⟩
  have : ((toUpperCase) "ok body" : String) = "ok body" := h.2.mp heq
  exact absurd this (by decide)

/-- C8: determinism across runs.  With pure (state-independent,
state-preserving) collaborators, running the blocking invocation a second
time — threading through whatever collaborator state the first run left —
returns the same outcome as the first run. -/
theorem call_deterministic_across_runs {σ : Type} (c : APIChainS σ)
    (inputs : List (String × String))
    (hr : PureInvoker2 c.api_request_chain)
    (ha : PureInvoker4 c.api_answer_chain)
    (hw : PureFetcher c.requests_wrapper) (s : σ) :
    (c.call inputs ((c.call inputs s).2)).1 = (c.call inputs s).1 := by
  obtain ⟨gr, hgr⟩ := hr
  obtain ⟨ga, hga⟩ := ha
  obtain ⟨gw, hgw⟩ := hw
  have key : ∀ t : σ, c.call inputs t = ((c.call inputs t).1, t) := by
    intro t
    cases hq : dictGet inputs c.question_key with
    | none => simp [APIChainS.call, hq]
    | some q =>
      cases hru : gr q c.api_docs with
      | error e => simp [APIChainS.call, hq, hgr, hru]
      | ok u =>
        cases hwu : gw u with
        | error e => simp [APIChainS.call, hq, hgr, hru, hgw, hwu]
        | ok r =>
          cases hp : c.api_request_output_parserFn with
          | none =>
            cases hau : ga q c.api_docs u r with
            | error e =>
              simp [APIChainS.call, hq, hgr, hru, hgw, hwu, hp, hga, hau]
            | ok answer =>
              simp [APIChainS.call, hq, hgr, hru, hgw, hwu, hp, hga, hau]
          | some p =>
            cases hau : ga q c.api_docs u (p r) with
            | error e =>
              simp [APIChainS.call, hq, hgr, hru, hgw, hwu, hp, hga, hau]
            | ok answer =>
              simp [APIChainS.call, hq, hgr, hru, hgw, hwu, hp, hga, hau]
  have hstate : (c.call inputs s).2 = s := by rw [key s]
  rw [hstate]

/-- C8 witness: with concrete pure stub collaborators over state Nat, two
consecutive invocations on the same question return the same outcome. -/
theorem call_deterministic_across_runs_witness :
    PureInvoker2 pureStubChainS.api_request_chain ∧
    PureInvoker4 pureStubChainS.api_answer_chain ∧
    PureFetcher pureStubChainS.requests_wrapper ∧
    (pureStubChainS.call [("question", "hello")]
        ((pureStubChainS.call [("question", "hello")] 0).2)).1 =
      (pureStubChainS.call [("question", "hello")] 0).1 :=
  ⟨⟨fun _ _ => .ok "http://x/", fun _ _ _ => rfl⟩,
   ⟨fun _ _ _ api_response => .ok api_response, fun _ _ _ _ _ => rfl⟩,
   ⟨fun _ => .ok "body", fun _ _ => rfl⟩,
   call_deterministic_across_runs pureStubChainS [("question", "hello")]
     ⟨fun _ _ => .ok "http://x/", fun _ _ _ => rfl⟩
     ⟨fun _ _ _ api_response => .ok api_response, fun _ _ _ _ _ => rfl⟩
     ⟨fun _ => .ok "body", fun _ _ => rfl⟩ 0⟩

/-- C9: the observer's fetched-response notification receives the raw fetched
text, and the normalizer's output appears only afterwards, in the phase-2
bindings: the full blocking trace is phase-1 invocation, URL notification,
fetch, raw-text notification, then the phase-2 invocation carrying the
normalized text — so the observed texts are the URL and the raw text. -/
theorem observer_receives_raw_before_normalizer
    (c : APIChain) (inputs : List (String × String)) (q u r : String)
    (f : String → String)
    (hq : dictGet inputs c.question_key = some q)
    (hreq : c.api_request_chain q c.api_docs = .ok u)
    (hget : c.requests_wrapper u = .ok r)
    (hp : c.api_request_output_parserFn = some f) :
    (c.call inputs).2 =
      [.predictRequest q c.api_docs, .onText u, .get u, .onText r,
       .predictAnswer q c.api_docs u (f r)] ∧
    observedTexts (c.call inputs).2 = [u, r] := by
  have htrace : (c.call inputs).2 =
      [.predictRequest q c.api_docs, .onText u, .get u, .onText r,
       .predictAnswer q c.api_docs u (f r)] := by
    simp only [APIChain.call, hq, hreq, hget, hp]
    cases ha : c.api_answer_chain q c.api_docs u (f r) with
    | error e => simp [ha]
    | ok answer => simp [ha]
  refine ⟨htrace, ?_⟩
  rw [htrace]
  simp [observedTexts]

/-- C9 witness: with the upper-casing normalizer, the observer sees the URL
and the raw text "ok body", never the normalized "OK BODY". -/
theorem observer_receives_raw_before_normalizer_witness :
    dictGet [("question", "q1")] upperChain.question_key = some "q1" ∧
    upperChain.api_request_chain "q1" upperChain.api_docs = .ok "http://x/" ∧
    upperChain.requests_wrapper "http://x/" = .ok "ok body" ∧
    upperChain.api_request_output_parserFn = some (toUpperCase) ∧
    observedTexts (upperChain.call [("question", "q1")]).2 =
      ["http://x/", "ok body"] := by
  refine ⟨rfl, rfl, rfl, rfl, ?_⟩
  exact (observer_receives_raw_before_normalizer upperChain [("question", "q1")]
    "q1" "http://x/" "ok body" (toUpperCase) rfl rfl rfl rfl).2

/-- C10: noninterference on extra input keys.  Two input mappings whose
lookup at the question key agrees produce identical outcomes and identical
traces: no other key of the input mapping influences the pipeline. -/
theorem call_ignores_extra_input_keys
    (c : APIChain) (inputs1 inputs2 : List (String × String))
    (h : dictGet inputs1 c.question_key = dictGet inputs2 c.question_key) :
    c.call inputs1 = c.call inputs2 := by
  unfold APIChain.call
  rw [h]

/-- C10 witness: adding an unrelated key to the input mapping leaves the
entire invocation outcome unchanged. -/
theorem call_ignores_extra_input_keys_witness :
    dictGet [("question", "hi"), ("extra", "zzz")] xyChain.question_key =
      dictGet [("question", "hi")] xyChain.question_key ∧
    xyChain.call [("question", "hi"), ("extra", "zzz")] =
      xyChain.call [("question", "hi")] :=
  ⟨rfl, call_ignores_extra_input_keys xyChain _ _ rfl⟩

end APIChainSpec
